import Mathlib

/-!
Shallow embedding of the `wrangler pipelines` command module and its HTTP
client (`packages/wrangler/src/pipelines/index.ts` and
`packages/wrangler/src/pipelines/client.ts`).

The command handlers are thin I/O wrappers around a pure "config builder":
parse flags, assemble a JSON configuration object (create) or partial patch
(update), and hand it to the client. We embed the pure assembly logic and
the request shapes the client constructs; network effects (token issuance,
the fixed propagation sleep, the HTTP transport) are abstracted by passing
the already-fetched service token and the hash function as parameters, and
by recording whether the token-generation branch was taken.

JavaScript conventions modelled explicitly:
 - an optional CLI flag is `Option _` (`none` = `undefined`);
 - `JSON.stringify` drops `undefined`-valued fields, so a field that is
   `none` is absent from the serialized object;
 - a truthiness test `if (x)` on a string flag is `truthyStr` (both
   `undefined` and the empty string are falsy);
 - `String.prototype.split('.')` is `splitDot`, splitting on every
   occurrence of the separator character and keeping empty pieces, so that
   `splitDot "" = [""]` exactly as in JavaScript.
-/

namespace Pipelines

/-- Transform entry `{script, entrypoint}` from `client.ts` (`TransformConfig`). -/
structure TransformConfig where
  script : String
  entrypoint : String
deriving Repr, DecidableEq

/-- An element of the `source` array of `PipelineUserConfig` in `client.ts`. -/
structure SourceItem where
  type : String
  format : String
  schema : Option String := none
deriving Repr, DecidableEq

/-- The `compression` object of the destination, from `client.ts`. -/
structure Compression where
  type : String
deriving Repr, DecidableEq

/-- The batch object as the handlers in `index.ts` actually construct it:
`{ max_mb: args['batch-max-mb'], max_duration: args['batch-max-seconds'],
max_rows: args['batch-max-rows'] }` (create handler and update handler use
the identical literal). Note the middle runtime key is `max_duration`. -/
structure Batch where
  max_mb : Option Nat
  max_duration : Option Nat
  max_rows : Option Nat
deriving Repr, DecidableEq

/-- Keys present in `JSON.stringify` of a runtime batch object
(`undefined`-valued properties are dropped, the rest keep literal order). -/
def Batch.jsonKeys (b : Batch) : List String :=
  (if b.max_mb.isSome then ["max_mb"] else [])
    ++ (if b.max_duration.isSome then ["max_duration"] else [])
    ++ (if b.max_rows.isSome then ["max_rows"] else [])

/-- Field names of the `batch` member as declared on the data-model type
`PipelineUserConfig` in `client.ts` (lines 27-31):
`{ max_duration_s?, max_mb?, max_rows? }`. -/
def declaredBatchFields : List String := ["max_duration_s", "max_mb", "max_rows"]

/-- The `credentials` object of the destination, from `client.ts`. -/
structure Credentials where
  endpoint : String
  secret_access_key : String
  access_key_id : String
deriving Repr, DecidableEq

/-- The `path` object of the destination, from `client.ts`
(`{bucket, filepath?, filename?}`). -/
structure Path where
  bucket : String
  filepath : Option String := none
  filename : Option String := none
deriving Repr, DecidableEq

/-- The `destination` object of `PipelineUserConfig`, from `client.ts`. -/
structure Destination where
  type : String
  format : String
  compression : Compression
  batch : Batch
  path : Path
  credentials : Credentials
deriving Repr, DecidableEq

/-- `PipelineUserConfig` from `client.ts`; `metadata : {[x: string]: string}`
is an association list. -/
structure PipelineUserConfig where
  name : String
  metadata : List (String × String)
  source : List SourceItem
  transforms : List TransformConfig
  destination : Destination
deriving Repr, DecidableEq

/-- The service-token payload returned by `POST /user/tokens` (`client.ts`). -/
structure ServiceToken where
  id : String
  name : String
  value : String
deriving Repr, DecidableEq

/-- Errors the handlers throw: `FatalError` (from `../errors`) and plain
`Error`. -/
inductive CliError where
  | fatalError (msg : String)
  | error (msg : String)
deriving Repr, DecidableEq

/-- Splitting a character list at every occurrence of `sep`, keeping empty
pieces; the result is always non-empty, with `[[]]` for the empty input. -/
def splitOnChar (sep : Char) : List Char → List (List Char)
  | [] => [[]]
  | c :: cs =>
    match splitOnChar sep cs with
    | [] => []
    | r :: rs => if c = sep then [] :: r :: rs else (c :: r) :: rs

/-- JavaScript `transform.split('.')`: split the string at every `.`,
keeping empty pieces (`splitDot "" = [""]`, `splitDot "a.b" = ["a", "b"]`,
`splitDot "a.b.c"` has three elements). -/
def splitDot (s : String) : List String :=
  (splitOnChar '.' s.toList).map (fun l => String.mk l)

/-- JavaScript truthiness of an optional string flag: `undefined` and `""`
are falsy, every other string truthy. -/
def truthyStr : Option String → Bool
  | none => false
  | some s => !s.isEmpty

/-- Parsed flags of `wrangler pipelines create <pipeline>` (positional plus
the options of `addCreateAndUpdateOptions` and the `--r2` option). `r2` is
kept optional so that the handler's own `if (!bucket)` guard is modelled. -/
structure CreateArgs where
  pipeline : String
  r2 : Option String := none
  batchMaxMb : Option Nat := none
  batchMaxRows : Option Nat := none
  batchMaxSeconds : Option Nat := none
  transform : Option String := none
  compression : Option String := none
  filepath : Option String := none
  filename : Option String := none
  authentication : Option Bool := none
deriving Repr, DecidableEq

/-- `args.compression === undefined ? 'none' : args.compression`
(create handler, `index.ts` line 117). -/
def resolveCompression : Option String → String
  | none => "none"
  | some c => c

/-- The batch literal both handlers build (`index.ts` lines 119-123 and
316-320): `{max_mb, max_duration: args['batch-max-seconds'], max_rows}`. -/
def mkBatch (mb secs rows : Option Nat) : Batch :=
  { max_mb := mb, max_duration := secs, max_rows := rows }

/-- The fully-populated `pipelineConfig` literal of the create handler
(`index.ts` lines 144-174), before the authentication / transform /
path mutations. -/
def baseCreateConfig (args : CreateArgs) (bucket accountId : String)
    (serviceToken : ServiceToken) (sha256 : String → String) : PipelineUserConfig :=
  { name := args.pipeline
    metadata := []
    source := [{ type := "http", format := "json" }, { type := "binding", format := "json" }]
    transforms := []
    destination :=
      { type := "r2"
        format := "json"
        compression := { type := resolveCompression args.compression }
        batch := mkBatch args.batchMaxMb args.batchMaxSeconds args.batchMaxRows
        path := { bucket := bucket }
        credentials :=
          { endpoint := "https://" ++ accountId ++ ".r2.cloudflarestorage.com"
            secret_access_key := sha256 serviceToken.value
            access_key_id := serviceToken.id } } }

/-- Authentication override of the create handler (`index.ts` lines
176-181): `authentication === true` replaces the source list. -/
def applyAuthCreate (authentication : Option Bool) (cfg : PipelineUserConfig) : PipelineUserConfig :=
  if authentication = some true then
    { cfg with source := [{ type := "binding", format := "json" }] }
  else cfg

/-- Transform parsing of the create handler (`index.ts` lines 183-198):
split the flag on `.`, push `{script, entrypoint}` for two segments,
default the entrypoint for one segment, otherwise throw. -/
def applyTransformCreate (transform : Option String) (cfg : PipelineUserConfig) :
    Except CliError PipelineUserConfig :=
  match transform with
  | none => .ok cfg
  | some t =>
    let split := splitDot t
    if split.length = 2 then
      .ok { cfg with transforms :=
              cfg.transforms ++ [{ script := split.getD 0 "", entrypoint := split.getD 1 "" }] }
    else if split.length = 1 then
      .ok { cfg with transforms :=
              cfg.transforms ++ [{ script := split.getD 0 "", entrypoint := "Transform" }] }
    else
      .error (.error "invalid transform: required syntax script.entrypoint")

/-- Filepath / filename overrides of the create handler (`index.ts` lines
200-205): two independent truthiness-guarded field writes. -/
def applyPathCreate (filepath filename : Option String) (cfg : PipelineUserConfig) :
    PipelineUserConfig :=
  let cfg :=
    if truthyStr filepath then
      { cfg with destination :=
          { cfg.destination with path := { cfg.destination.path with filepath := filepath } } }
    else cfg
  if truthyStr filename then
    { cfg with destination :=
        { cfg.destination with path := { cfg.destination.path with filename := filename } } }
  else cfg

/-- Pure core of the create handler (`index.ts` lines 111-208): the bucket
guard, the config literal, then the authentication, transform and path
steps, in source order. The service token and hash function stand for the
values the surrounding I/O fetched. -/
def buildCreateConfig (args : CreateArgs) (accountId : String)
    (serviceToken : ServiceToken) (sha256 : String → String) :
    Except CliError PipelineUserConfig :=
  match args.r2 with
  | none => .error (.fatalError "Requires a r2 bucket")
  | some bucket =>
    if bucket.isEmpty then .error (.fatalError "Requires a r2 bucket")
    else
      let cfg := baseCreateConfig args bucket accountId serviceToken sha256
      let cfg := applyAuthCreate args.authentication cfg
      match applyTransformCreate args.transform cfg with
      | .error e => .error e
      | .ok cfg => .ok (applyPathCreate args.filepath args.filename cfg)

/-- Parsed flags of `wrangler pipelines update <pipeline-name>`: the same
option set, with `--r2` optional (`demandOption: false`). -/
structure UpdateArgs where
  pipeline : String
  r2 : Option String := none
  batchMaxMb : Option Nat := none
  batchMaxRows : Option Nat := none
  batchMaxSeconds : Option Nat := none
  transform : Option String := none
  compression : Option String := none
  filepath : Option String := none
  filename : Option String := none
  authentication : Option Bool := none
deriving Repr, DecidableEq

/-- Partial `path` object as the update handler writes it: `{bucket}` in the
bucket branch, `{filepath, filename}` in the path branch. -/
structure PartialPath where
  bucket : Option String := none
  filepath : Option String := none
  filename : Option String := none
deriving Repr, DecidableEq

/-- Partial `destination` object of the update patch: every member of
`Destination` optional (`undefined` when never assigned). -/
structure PartialDestination where
  type : Option String := none
  format : Option String := none
  compression : Option Compression := none
  batch : Option Batch := none
  path : Option PartialPath := none
  credentials : Option Credentials := none
deriving Repr, DecidableEq

/-- The outgoing update patch, `PartialExcept<PipelineUserConfig, "name">`
(`index.ts` lines 294-297): `name` and `metadata` are always set, the rest
only when the handler assigns them. -/
structure UpdatePatch where
  name : String
  metadata : List (String × String)
  source : Option (List SourceItem) := none
  transforms : Option (List TransformConfig) := none
  destination : Option PartialDestination := none
deriving Repr, DecidableEq

/-- Compression block of the update handler (`index.ts` lines 302-314):
only when the flag was given, placing the object on a fresh or existing
destination. -/
def applyCompressionUpdate (compression : Option String) (p : UpdatePatch) : UpdatePatch :=
  match compression with
  | none => p
  | some c =>
    match p.destination with
    | none => { p with destination := some { compression := some { type := c } } }
    | some d => { p with destination := some { d with compression := some { type := c } } }

/-- Batch block of the update handler (`index.ts` lines 316-328): the batch
object is assigned unconditionally. -/
def applyBatchUpdate (batch : Batch) (p : UpdatePatch) : UpdatePatch :=
  match p.destination with
  | none => { p with destination := some { batch := some batch } }
  | some d => { p with destination := some { d with batch := some batch } }

/-- Bucket block of the update handler (`index.ts` lines 331-367): when the
`--r2` flag is truthy, a fresh service token is turned into credentials and
the path is reset to `{bucket}`. The boolean records whether the
token-generation branch ran. -/
def applyBucketUpdate (r2 : Option String) (accountId : String)
    (serviceToken : ServiceToken) (sha256 : String → String) (p : UpdatePatch) :
    UpdatePatch × Bool :=
  match r2 with
  | none => (p, false)
  | some bucket =>
    if bucket.isEmpty then (p, false)
    else
      let creds : Credentials :=
        { endpoint := "https://" ++ accountId ++ ".r2.cloudflarestorage.com"
          secret_access_key := sha256 serviceToken.value
          access_key_id := serviceToken.id }
      match p.destination with
      | none =>
        ({ p with
             destination := some { path := some { bucket := some bucket }, credentials := some creds } },
         true)
      | some d =>
        ({ p with
             destination := some { d with path := some { bucket := some bucket }, credentials := some creds } },
         true)

/-- Authentication block of the update handler (`index.ts` lines 369-374). -/
def applyAuthUpdate (authentication : Option Bool) (p : UpdatePatch) : UpdatePatch :=
  if authentication = some true then
    { p with source := some [{ type := "binding", format := "json" }] }
  else p

/-- Transform block of the update handler (`index.ts` lines 376-392):
`transforms` is reset to `[]` and one parsed entry pushed, with the same
split rules as create. -/
def applyTransformUpdate (transform : Option String) (p : UpdatePatch) :
    Except CliError UpdatePatch :=
  match transform with
  | none => .ok p
  | some t =>
    let split := splitDot t
    if split.length = 2 then
      .ok { p with
              transforms := some [{ script := split.getD 0 "", entrypoint := split.getD 1 "" }] }
    else if split.length = 1 then
      .ok { p with
              transforms := some [{ script := split.getD 0 "", entrypoint := "Transform" }] }
    else
      .error (.error "invalid transform: required syntax script.entrypoint")

/-- Filepath / filename block of the update handler (`index.ts` lines
395-409): guarded by the truthiness of either flag; writes a
`{filepath, filename}` path only when the destination or its path is still
unset — there is no branch for an already-present path. -/
def applyPathUpdate (filepath filename : Option String) (p : UpdatePatch) : UpdatePatch :=
  if truthyStr filepath || truthyStr filename then
    match p.destination with
    | none =>
      { p with destination := some { path := some { filepath := filepath, filename := filename } } }
    | some d =>
      match d.path with
      | none =>
        { p with destination := some { d with path := some { filepath := filepath, filename := filename } } }
      | some _ => p
  else p

/-- Pure core of the update handler (`index.ts` lines 289-412): the blocks
in source order, starting from the `{name, metadata: {}}` literal. Returns
the outgoing patch and whether a new service token was generated. -/
def buildUpdateConfig (args : UpdateArgs) (accountId : String)
    (serviceToken : ServiceToken) (sha256 : String → String) :
    Except CliError (UpdatePatch × Bool) :=
  let p : UpdatePatch := { name := args.pipeline, metadata := [] }
  let p := applyCompressionUpdate args.compression p
  let p := applyBatchUpdate (mkBatch args.batchMaxMb args.batchMaxSeconds args.batchMaxRows) p
  let pg := applyBucketUpdate args.r2 accountId serviceToken sha256 p
  let p := applyAuthUpdate args.authentication pg.1
  match applyTransformUpdate args.transform p with
  | .error e => .error e
  | .ok p => .ok (applyPathUpdate args.filepath args.filename p, pg.2)

/-- Name guard of the delete handler (`index.ts` lines 261-263): the name
must match `^[a-zA-Z0-9-]+$` before the DELETE request is issued. -/
def validPipelineName (s : String) : Bool :=
  !s.isEmpty && s.toList.all (fun c => c.isAlphanum || c = '-')

/-- Pure core of the delete handler preceding its HTTP call. -/
def deleteNameCheck (name : String) : Except CliError Unit :=
  if validPipelineName name then .ok ()
  else .error (.error "must provide a valid pipeline name")

/-- Subcommands registered by the `pipelines` function (`index.ts` lines
93-419): the four `.command(...)` calls, in order. -/
def registeredPipelineCommands : List String :=
  ["create <pipeline>", "list", "delete <pipeline-name>", "update <pipeline-name>"]

/-- First word of a yargs command string: the subcommand name. -/
def commandWord (s : String) : String :=
  ((splitOnChar ' ' s.toList).map (fun l => String.mk l)).getD 0 ""

/-- Method and path of `getPipeline` in `client.ts` (lines 119-123):
`GET /accounts/{accountId}/pipelines/{id}`, no body. -/
def getPipelineRequest (accountId id : String) : String × String :=
  ("GET", "/accounts/" ++ accountId ++ "/pipelines/" ++ id)

/-- JSON body of `updatePipeline` in `client.ts` (lines 130-133):
`{ name: 'foo', config }`. -/
structure UpdateRequestBody where
  name : String
  config : UpdatePatch
deriving Repr, DecidableEq

/-- Request constructed by `updatePipeline` in `client.ts` (lines 126-135):
method, path, and the JSON body. -/
def updatePipelineRequest (accountId id : String) (config : UpdatePatch) :
    String × String × UpdateRequestBody :=
  ("PUT", "/accounts/" ++ accountId ++ "/pipelines/" ++ id,
    { name := "foo", config := config })

/-- Sample service token used to instantiate theorems with hypotheses. -/
def tok0 : ServiceToken := { id := "tid", name := "tname", value := "tval" }

/-! Inversion and block lemmas used by the claim theorems. -/

theorem buildCreateConfig_ok_shape (args : CreateArgs) (accountId : String)
    (tok : ServiceToken) (h : String → String) (cfg : PipelineUserConfig)
    (hok : buildCreateConfig args accountId tok h = .ok cfg) :
    ∃ bucket cfg1, args.r2 = some bucket ∧ bucket.isEmpty = false ∧
      applyTransformCreate args.transform
          (applyAuthCreate args.authentication
            (baseCreateConfig args bucket accountId tok h)) = .ok cfg1 ∧
      cfg = applyPathCreate args.filepath args.filename cfg1 := by
  unfold buildCreateConfig at hok
  split at hok
  · exact absurd hok (by simp)
  next bucket hr =>
    split at hok
    · exact absurd hok (by simp)
    next hb =>
      dsimp only at hok
      split at hok
      next e htc => exact absurd hok (by simp)
      next cfg1 htc =>
        simp only [Except.ok.injEq] at hok
        exact ⟨bucket, cfg1, hr, by simpa using hb, htc, hok.symm⟩

theorem buildUpdateConfig_ok_shape (args : UpdateArgs) (accountId : String)
    (tok : ServiceToken) (h : String → String) (p : UpdatePatch) (g : Bool)
    (hok : buildUpdateConfig args accountId tok h = .ok (p, g)) :
    ∃ q, applyTransformUpdate args.transform
           (applyAuthUpdate args.authentication
             (applyBucketUpdate args.r2 accountId tok h
               (applyBatchUpdate (mkBatch args.batchMaxMb args.batchMaxSeconds args.batchMaxRows)
                 (applyCompressionUpdate args.compression
                   { name := args.pipeline, metadata := [] }))).1) = .ok q ∧
      p = applyPathUpdate args.filepath args.filename q ∧
      g = (applyBucketUpdate args.r2 accountId tok h
            (applyBatchUpdate (mkBatch args.batchMaxMb args.batchMaxSeconds args.batchMaxRows)
              (applyCompressionUpdate args.compression
                { name := args.pipeline, metadata := [] }))).2 := by
  unfold buildUpdateConfig at hok
  dsimp only at hok
  split at hok
  next e htc => exact absurd hok (by simp)
  next q htc =>
    simp only [Except.ok.injEq, Prod.mk.injEq] at hok
    exact ⟨q, htc, hok.1.symm, hok.2.symm⟩

theorem applyCompressionUpdate_batch_init (c : Option String) (b : Batch)
    (n : String) (m : List (String × String)) :
    applyBatchUpdate b (applyCompressionUpdate c { name := n, metadata := m }) =
      { name := n, metadata := m,
        destination := some { compression := Option.map (fun x => { type := x }) c,
                              batch := some b } } := by
  cases c <;> rfl

theorem applyBucketUpdate_none (accountId : String) (tok : ServiceToken)
    (h : String → String) (p : UpdatePatch) :
    applyBucketUpdate none accountId tok h p = (p, false) := rfl

theorem applyBucketUpdate_not_truthy (r2 : Option String) (accountId : String)
    (tok : ServiceToken) (h : String → String) (p : UpdatePatch)
    (hr : truthyStr r2 = false) :
    applyBucketUpdate r2 accountId tok h p = (p, false) := by
  cases r2 with
  | none => rfl
  | some b =>
    simp only [truthyStr, Bool.not_eq_false'] at hr
    simp [applyBucketUpdate, hr]

theorem applyBucketUpdate_some (b : String) (hb : b.isEmpty = false)
    (accountId : String) (tok : ServiceToken) (h : String → String)
    (n : String) (m : List (String × String)) (s : Option (List SourceItem))
    (t : Option (List TransformConfig)) (d : PartialDestination) :
    applyBucketUpdate (some b) accountId tok h
        { name := n, metadata := m, source := s, transforms := t, destination := some d } =
      ({ name := n, metadata := m, source := s, transforms := t,
         destination := some { d with
           path := some { bucket := some b },
           credentials := some
             { endpoint := "https://" ++ accountId ++ ".r2.cloudflarestorage.com"
               secret_access_key := h tok.value
               access_key_id := tok.id } } }, true) := by
  simp [applyBucketUpdate, hb]

theorem applyAuthUpdate_eq (a : Option Bool) (p : UpdatePatch) :
    applyAuthUpdate a p =
      { p with source := if a = some true
          then some [{ type := "binding", format := "json" }] else p.source } := by
  unfold applyAuthUpdate
  split <;> rfl

theorem applyTransformUpdate_ok_frame (t : Option String) (p q : UpdatePatch)
    (hok : applyTransformUpdate t p = .ok q) :
    q.name = p.name ∧ q.metadata = p.metadata ∧ q.source = p.source ∧
      q.destination = p.destination ∧ (t = none → q = p) := by
  cases t with
  | none =>
    simp only [applyTransformUpdate, Except.ok.injEq] at hok
    subst hok; exact ⟨rfl, rfl, rfl, rfl, fun _ => rfl⟩
  | some s =>
    simp only [applyTransformUpdate] at hok
    split at hok <;> [skip; split at hok] <;>
      simp only [Except.ok.injEq, reduceCtorEq] at hok <;>
      subst hok <;> exact ⟨rfl, rfl, rfl, rfl, by simp⟩

theorem applyPathUpdate_not_truthy (fp fn : Option String) (p : UpdatePatch)
    (hg : (truthyStr fp || truthyStr fn) = false) :
    applyPathUpdate fp fn p = p := by
  simp [applyPathUpdate, hg]

theorem applyPathUpdate_path_none (fp fn : Option String) (p : UpdatePatch)
    (d : PartialDestination) (hg : (truthyStr fp || truthyStr fn) = true)
    (hpd : p.destination = some d) (hd : d.path = none) :
    applyPathUpdate fp fn p =
      { p with destination := some { d with path := some { filepath := fp, filename := fn } } } := by
  simp [applyPathUpdate, hg, hpd, hd]

theorem applyPathUpdate_path_some (fp fn : Option String) (p : UpdatePatch)
    (d : PartialDestination) (pp : PartialPath)
    (hpd : p.destination = some d) (hd : d.path = some pp) :
    applyPathUpdate fp fn p = p := by
  unfold applyPathUpdate
  split
  · simp [hpd, hd]
  · rfl

theorem applyPathUpdate_frame (fp fn : Option String) (p : UpdatePatch) :
    (applyPathUpdate fp fn p).name = p.name ∧
      (applyPathUpdate fp fn p).metadata = p.metadata ∧
      (applyPathUpdate fp fn p).source = p.source ∧
      (applyPathUpdate fp fn p).transforms = p.transforms := by
  unfold applyPathUpdate
  split
  · split
    · exact ⟨rfl, rfl, rfl, rfl⟩
    · split
      · exact ⟨rfl, rfl, rfl, rfl⟩
      · exact ⟨rfl, rfl, rfl, rfl⟩
  · exact ⟨rfl, rfl, rfl, rfl⟩

theorem truthyStr_eq_true (o : Option String) :
    truthyStr o = true ↔ ∃ s, o = some s ∧ s.isEmpty = false := by
  cases o <;> simp [truthyStr]

theorem updatePatch_pre_no_bucket (args : UpdateArgs) (accountId : String)
    (tok : ServiceToken) (h : String → String) (hr : truthyStr args.r2 = false) :
    applyBucketUpdate args.r2 accountId tok h
        (applyBatchUpdate (mkBatch args.batchMaxMb args.batchMaxSeconds args.batchMaxRows)
          (applyCompressionUpdate args.compression
            { name := args.pipeline, metadata := [] })) =
      ({ name := args.pipeline, metadata := [],
         destination := some
           { compression := Option.map (fun c => { type := c }) args.compression,
             batch := some (mkBatch args.batchMaxMb args.batchMaxSeconds args.batchMaxRows) } },
       false) := by
  rw [applyCompressionUpdate_batch_init]
  exact applyBucketUpdate_not_truthy _ _ _ _ _ hr

theorem updatePatch_pre_bucket (args : UpdateArgs) (accountId : String)
    (tok : ServiceToken) (h : String → String) (b : String)
    (hr : args.r2 = some b) (hb : b.isEmpty = false) :
    applyBucketUpdate args.r2 accountId tok h
        (applyBatchUpdate (mkBatch args.batchMaxMb args.batchMaxSeconds args.batchMaxRows)
          (applyCompressionUpdate args.compression
            { name := args.pipeline, metadata := [] })) =
      ({ name := args.pipeline, metadata := [],
         destination := some
           { compression := Option.map (fun c => { type := c }) args.compression,
             batch := some (mkBatch args.batchMaxMb args.batchMaxSeconds args.batchMaxRows),
             path := some { bucket := some b },
             credentials := some
               { endpoint := "https://" ++ accountId ++ ".r2.cloudflarestorage.com"
                 secret_access_key := h tok.value
                 access_key_id := tok.id } } },
       true) := by
  rw [applyCompressionUpdate_batch_init, hr]
  exact applyBucketUpdate_some b hb accountId tok h _ _ _ _ _

theorem applyAuthCreate_frame (a : Option Bool) (cfg : PipelineUserConfig) :
    (applyAuthCreate a cfg).name = cfg.name ∧
      (applyAuthCreate a cfg).metadata = cfg.metadata ∧
      (applyAuthCreate a cfg).transforms = cfg.transforms ∧
      (applyAuthCreate a cfg).destination = cfg.destination := by
  unfold applyAuthCreate
  split <;> exact ⟨rfl, rfl, rfl, rfl⟩

theorem applyPathCreate_frame (fp fn : Option String) (cfg : PipelineUserConfig) :
    (applyPathCreate fp fn cfg).name = cfg.name ∧
      (applyPathCreate fp fn cfg).source = cfg.source ∧
      (applyPathCreate fp fn cfg).transforms = cfg.transforms := by
  unfold applyPathCreate
  dsimp only
  split <;> split <;> exact ⟨rfl, rfl, rfl⟩

theorem applyPathCreate_transforms (fp fn : Option String) (cfg : PipelineUserConfig) :
    (applyPathCreate fp fn cfg).transforms = cfg.transforms :=
  (applyPathCreate_frame fp fn cfg).2.2

theorem applyPathUpdate_transforms (fp fn : Option String) (p : UpdatePatch) :
    (applyPathUpdate fp fn p).transforms = p.transforms :=
  (applyPathUpdate_frame fp fn p).2.2.2

theorem applyAuthCreate_source (a : Option Bool) (cfg : PipelineUserConfig) :
    (applyAuthCreate a cfg).source =
      if a = some true then [{ type := "binding", format := "json" }] else cfg.source := by
  unfold applyAuthCreate
  split <;> rfl

theorem applyTransformCreate_ok_frame (t : Option String) (cfg cfg2 : PipelineUserConfig)
    (hok : applyTransformCreate t cfg = .ok cfg2) :
    cfg2.name = cfg.name ∧ cfg2.metadata = cfg.metadata ∧ cfg2.source = cfg.source ∧
      cfg2.destination = cfg.destination ∧ (t = none → cfg2 = cfg) := by
  cases t with
  | none =>
    simp only [applyTransformCreate, Except.ok.injEq] at hok
    subst hok; exact ⟨rfl, rfl, rfl, rfl, fun _ => rfl⟩
  | some s =>
    simp only [applyTransformCreate] at hok
    split at hok <;> [skip; split at hok] <;>
      simp only [Except.ok.injEq, reduceCtorEq] at hok <;>
      subst hok <;> exact ⟨rfl, rfl, rfl, rfl, by simp⟩

theorem applyPathCreate_metadata (fp fn : Option String) (cfg : PipelineUserConfig) :
    (applyPathCreate fp fn cfg).metadata = cfg.metadata := by
  unfold applyPathCreate
  dsimp only
  split <;> split <;> rfl

theorem applyPathCreate_dest_frame (fp fn : Option String) (cfg : PipelineUserConfig) :
    (applyPathCreate fp fn cfg).destination.type = cfg.destination.type ∧
      (applyPathCreate fp fn cfg).destination.format = cfg.destination.format ∧
      (applyPathCreate fp fn cfg).destination.compression = cfg.destination.compression ∧
      (applyPathCreate fp fn cfg).destination.batch = cfg.destination.batch ∧
      (applyPathCreate fp fn cfg).destination.credentials = cfg.destination.credentials ∧
      (applyPathCreate fp fn cfg).destination.path.bucket = cfg.destination.path.bucket := by
  unfold applyPathCreate
  dsimp only
  split <;> split <;> exact ⟨rfl, rfl, rfl, rfl, rfl, rfl⟩

theorem applyPathCreate_filepath (fp fn : Option String) (cfg : PipelineUserConfig) :
    (applyPathCreate fp fn cfg).destination.path.filepath =
      if truthyStr fp then fp else cfg.destination.path.filepath := by
  unfold applyPathCreate
  dsimp only
  split <;> split <;> simp_all

theorem applyPathCreate_filename (fp fn : Option String) (cfg : PipelineUserConfig) :
    (applyPathCreate fp fn cfg).destination.path.filename =
      if truthyStr fn then fn else cfg.destination.path.filename := by
  unfold applyPathCreate
  dsimp only
  split <;> split <;> simp_all

/-- Full characterization of a successful create-config build; the create
claims below project out of this description. -/
theorem buildCreateConfig_characterization (args : CreateArgs) (accountId : String)
    (tok : ServiceToken) (h : String → String) (cfg : PipelineUserConfig)
    (hok : buildCreateConfig args accountId tok h = .ok cfg) :
    cfg.name = args.pipeline ∧ cfg.metadata = [] ∧
    cfg.source = (if args.authentication = some true
        then [{ type := "binding", format := "json" }]
        else [{ type := "http", format := "json" }, { type := "binding", format := "json" }]) ∧
    (args.transform = none → cfg.transforms = []) ∧
    cfg.destination.type = "r2" ∧ cfg.destination.format = "json" ∧
    cfg.destination.compression = { type := resolveCompression args.compression } ∧
    cfg.destination.batch = mkBatch args.batchMaxMb args.batchMaxSeconds args.batchMaxRows ∧
    (∀ b, args.r2 = some b → cfg.destination.path.bucket = b) ∧
    cfg.destination.path.filepath = (if truthyStr args.filepath then args.filepath else none) ∧
    cfg.destination.path.filename = (if truthyStr args.filename then args.filename else none) ∧
    cfg.destination.credentials =
      { endpoint := "https://" ++ accountId ++ ".r2.cloudflarestorage.com"
        secret_access_key := h tok.value
        access_key_id := tok.id } := by
  obtain ⟨b, cfg1, hb, he, htc, hcfg⟩ := buildCreateConfig_ok_shape args accountId tok h cfg hok
  have aframe := applyAuthCreate_frame args.authentication (baseCreateConfig args b accountId tok h)
  have tframe := applyTransformCreate_ok_frame _ _ _ htc
  subst hcfg
  have pframe := applyPathCreate_frame args.filepath args.filename cfg1
  have pmeta := applyPathCreate_metadata args.filepath args.filename cfg1
  have pdest := applyPathCreate_dest_frame args.filepath args.filename cfg1
  refine ⟨?_, ?_, ?_, ?_, ?_, ?_, ?_, ?_, ?_, ?_, ?_, ?_⟩
  · rw [pframe.1, tframe.1, aframe.1]; rfl
  · rw [pmeta, tframe.2.1, aframe.2.1]; rfl
  · rw [pframe.2.1, tframe.2.2.1, applyAuthCreate_source]; rfl
  · intro ht
    rw [pframe.2.2, tframe.2.2.2.2 ht, aframe.2.2.1]; rfl
  · rw [pdest.1, tframe.2.2.2.1, aframe.2.2.2]; rfl
  · rw [pdest.2.1, tframe.2.2.2.1, aframe.2.2.2]; rfl
  · rw [pdest.2.2.1, tframe.2.2.2.1, aframe.2.2.2]; rfl
  · rw [pdest.2.2.2.1, tframe.2.2.2.1, aframe.2.2.2]; rfl
  · intro b2 hb2
    rw [hb] at hb2
    cases hb2
    rw [pdest.2.2.2.2.2, tframe.2.2.2.1, aframe.2.2.2]; rfl
  · rw [applyPathCreate_filepath]
    have hbase : cfg1.destination.path.filepath = none := by
      rw [tframe.2.2.2.1, aframe.2.2.2]; rfl
    rw [hbase]
  · rw [applyPathCreate_filename]
    have hbase : cfg1.destination.path.filename = none := by
      rw [tframe.2.2.2.1, aframe.2.2.2]; rfl
    rw [hbase]
  · rw [pdest.2.2.2.2.1, tframe.2.2.2.1, aframe.2.2.2]; rfl

theorem buildCreateConfig_ok_exists (args : CreateArgs) (accountId : String)
    (tok : ServiceToken) (h : String → String)
    (hr : truthyStr args.r2 = true) (ht : args.transform = none) :
    ∃ cfg, buildCreateConfig args accountId tok h = .ok cfg := by
  obtain ⟨b, hb, he⟩ := (truthyStr_eq_true args.r2).mp hr
  exact ⟨applyPathCreate args.filepath args.filename
           (applyAuthCreate args.authentication (baseCreateConfig args b accountId tok h)),
    by simp only [buildCreateConfig, hb, he, Bool.false_eq_true, if_false,
         applyTransformCreate, ht]⟩

theorem buildUpdateConfig_ok_exists (args : UpdateArgs) (accountId : String)
    (tok : ServiceToken) (h : String → String) (ht : args.transform = none) :
    ∃ pg, buildUpdateConfig args accountId tok h = .ok pg := by
  exact ⟨(applyPathUpdate args.filepath args.filename
            (applyAuthUpdate args.authentication
              (applyBucketUpdate args.r2 accountId tok h
                (applyBatchUpdate (mkBatch args.batchMaxMb args.batchMaxSeconds args.batchMaxRows)
                  (applyCompressionUpdate args.compression
                    { name := args.pipeline, metadata := [] }))).1),
          (applyBucketUpdate args.r2 accountId tok h
            (applyBatchUpdate (mkBatch args.batchMaxMb args.batchMaxSeconds args.batchMaxRows)
              (applyCompressionUpdate args.compression
                { name := args.pipeline, metadata := [] }))).2),
    by unfold buildUpdateConfig; dsimp only; simp only [applyTransformUpdate, ht]⟩

/-! Claim theorems. -/

/-- C1 (counterexample): an update invocation with no configuration flag at
all — in particular none of `--batch-max-mb` / `--batch-max-rows` /
`--batch-max-seconds` — still produces an outgoing patch whose destination
carries a `batch` object, so a field for which no flag was given is not
absent from the patch. -/
theorem update_patch_batch_always_present :
    buildUpdateConfig { pipeline := "my-pipeline" } "acct" tok0 (fun s => s) =
      .ok ({ name := "my-pipeline", metadata := [],
             destination := some
               { batch := some { max_mb := none, max_duration := none, max_rows := none } } },
           false) := by
  rfl

/-- Full characterization of a successful update-patch build; the update
claims below project out of this description. -/
theorem buildUpdateConfig_characterization (args : UpdateArgs) (accountId : String)
    (tok : ServiceToken) (h : String → String) (p : UpdatePatch) (g : Bool)
    (hok : buildUpdateConfig args accountId tok h = .ok (p, g)) :
    p.name = args.pipeline ∧ p.metadata = [] ∧
    p.source = (if args.authentication = some true
        then some [{ type := "binding", format := "json" }] else none) ∧
    (args.transform = none → p.transforms = none) ∧
    g = truthyStr args.r2 ∧
    ∃ d, p.destination = some d ∧
      d.type = none ∧ d.format = none ∧
      d.batch = some (mkBatch args.batchMaxMb args.batchMaxSeconds args.batchMaxRows) ∧
      d.compression = Option.map (fun c => { type := c }) args.compression ∧
      (∀ b, args.r2 = some b → b.isEmpty = false →
        d.path = some { bucket := some b } ∧
        d.credentials = some
          { endpoint := "https://" ++ accountId ++ ".r2.cloudflarestorage.com"
            secret_access_key := h tok.value
            access_key_id := tok.id }) ∧
      (truthyStr args.r2 = false →
        d.credentials = none ∧
        ((truthyStr args.filepath || truthyStr args.filename) = true →
          d.path = some { filepath := args.filepath, filename := args.filename }) ∧
        ((truthyStr args.filepath || truthyStr args.filename) = false → d.path = none)) := by
  obtain ⟨q, htc, hp, hg⟩ := buildUpdateConfig_ok_shape args accountId tok h p g hok
  by_cases hr : truthyStr args.r2 = true
  · obtain ⟨b, hrb, hbe⟩ := (truthyStr_eq_true args.r2).mp hr
    rw [updatePatch_pre_bucket args accountId tok h b hrb hbe] at htc hg
    rw [applyAuthUpdate_eq] at htc
    have frame := applyTransformUpdate_ok_frame _ _ _ htc
    have hqd : q.destination = some
        { compression := Option.map (fun c => { type := c }) args.compression,
          batch := some (mkBatch args.batchMaxMb args.batchMaxSeconds args.batchMaxRows),
          path := some { bucket := some b },
          credentials := some
            { endpoint := "https://" ++ accountId ++ ".r2.cloudflarestorage.com"
              secret_access_key := h tok.value
              access_key_id := tok.id } } := frame.2.2.2.1
    have hpq : p = q := by
      rw [hp]
      exact applyPathUpdate_path_some _ _ q _ _ hqd rfl
    subst hpq
    refine ⟨frame.1, frame.2.1, ?_, ?_, ?_, ?_⟩
    · rw [frame.2.2.1]
    · intro ht
      rw [frame.2.2.2.2 ht]
    · rw [hg, hr]
    · refine ⟨_, hqd, rfl, rfl, rfl, rfl, ?_, ?_⟩
      · intro b2 hb2 _
        rw [hrb] at hb2
        cases hb2
        exact ⟨rfl, rfl⟩
      · intro hcon; rw [hr] at hcon; exact absurd hcon (by simp)
  · have hr0 : truthyStr args.r2 = false := by simpa using hr
    have hbabs : ∀ b, args.r2 = some b → b.isEmpty = false → False := by
      intro b hb hbe
      rw [(truthyStr_eq_true args.r2).mpr ⟨b, hb, hbe⟩] at hr0
      exact absurd hr0 (by simp)
    rw [updatePatch_pre_no_bucket args accountId tok h hr0] at htc hg
    rw [applyAuthUpdate_eq] at htc
    have frame := applyTransformUpdate_ok_frame _ _ _ htc
    have hqd : q.destination = some
        { compression := Option.map (fun c => { type := c }) args.compression,
          batch := some (mkBatch args.batchMaxMb args.batchMaxSeconds args.batchMaxRows) } :=
      frame.2.2.2.1
    by_cases hguard : (truthyStr args.filepath || truthyStr args.filename) = true
    · have hpq : p = { q with
          destination := some { compression := Option.map (fun c => { type := c }) args.compression,
                                batch := some (mkBatch args.batchMaxMb args.batchMaxSeconds args.batchMaxRows),
                                path := some { filepath := args.filepath, filename := args.filename } } } := by
        rw [hp]
        exact applyPathUpdate_path_none _ _ q _ hguard hqd rfl
      refine ⟨by rw [hpq]; exact frame.1, by rw [hpq]; exact frame.2.1, ?_, ?_, ?_, ?_⟩
      · rw [hpq]
        show q.source = _
        rw [frame.2.2.1]
      · intro ht
        rw [hpq]
        show q.transforms = none
        rw [frame.2.2.2.2 ht]
      · rw [hg, hr0]
      · refine ⟨_, by rw [hpq], rfl, rfl, rfl, rfl, ?_, ?_⟩
        · intro b2 hb2 hbe2; exact (hbabs b2 hb2 hbe2).elim
        · intro _
          refine ⟨rfl, fun _ => rfl, ?_⟩
          intro hcon; rw [hguard] at hcon; exact absurd hcon (by simp)
    · have hguard0 : (truthyStr args.filepath || truthyStr args.filename) = false := by
        simpa using hguard
      have hpq : p = q := by
        rw [hp]
        exact applyPathUpdate_not_truthy _ _ q hguard0
      subst hpq
      refine ⟨frame.1, frame.2.1, ?_, ?_, ?_, ?_⟩
      · rw [frame.2.2.1]
      · intro ht; rw [frame.2.2.2.2 ht]
      · rw [hg, hr0]
      · refine ⟨_, hqd, rfl, rfl, rfl, rfl, ?_, ?_⟩
        · intro b2 hb2 hbe2; exact (hbabs b2 hb2 hbe2).elim
        · intro _
          refine ⟨rfl, ?_, fun _ => rfl⟩
          intro hcon; rw [hguard0] at hcon; exact absurd hcon (by simp)

/-- C1 (amended): the outgoing update patch contains exactly the
configuration fields supplied as flags, plus the pipeline name, an empty
`metadata` object, and a `batch` object that is always present (its three
limits being exactly the supplied flags): `source` appears iff
`--authentication` is true, `transforms` is absent when `--transform` is
absent, `compression` mirrors the `--compression` flag, and `credentials` /
`path` are absent when `--r2` (resp. `--r2`, `--filepath`, `--filename`)
are not supplied. -/
theorem update_patch_only_flag_fields (args : UpdateArgs) (accountId : String)
    (tok : ServiceToken) (h : String → String) (p : UpdatePatch) (g : Bool)
    (hok : buildUpdateConfig args accountId tok h = .ok (p, g)) :
    p.name = args.pipeline ∧ p.metadata = [] ∧
    p.source = (if args.authentication = some true
        then some [{ type := "binding", format := "json" }] else none) ∧
    (args.transform = none → p.transforms = none) ∧
    ∃ d, p.destination = some d ∧
      d.type = none ∧ d.format = none ∧
      d.batch = some (mkBatch args.batchMaxMb args.batchMaxSeconds args.batchMaxRows) ∧
      d.compression = Option.map (fun c => { type := c }) args.compression ∧
      (truthyStr args.r2 = false → d.credentials = none) ∧
      (truthyStr args.r2 = false → truthyStr args.filepath = false →
        truthyStr args.filename = false → d.path = none) := by
  obtain ⟨h1, h2, h3, h4, _, d, hd, hty, hfo, hba, hcm, _, hnb⟩ :=
    buildUpdateConfig_characterization args accountId tok h p g hok
  refine ⟨h1, h2, h3, h4, d, hd, hty, hfo, hba, hcm, ?_, ?_⟩
  · intro hr; exact (hnb hr).1
  · intro hr hfp hfn
    exact (hnb hr).2.2 (by rw [hfp, hfn]; rfl)

/-- C1 (witness): the amended theorem applied to a concrete update
invocation supplying only `--batch-max-mb 7`. -/
theorem update_patch_only_flag_fields_witness :
    buildUpdateConfig { pipeline := "pipe-1", batchMaxMb := some 7 } "acct" tok0 (fun s => s) =
        .ok ({ name := "pipe-1", metadata := [],
               destination := some
                 { batch := some { max_mb := some 7, max_duration := none, max_rows := none } } },
             false) ∧
      ({ name := "pipe-1", metadata := [],
         destination := some
           { batch := some { max_mb := some 7, max_duration := none, max_rows := none } } } :
        UpdatePatch).name = "pipe-1" := by
  refine ⟨rfl, ?_⟩
  exact (update_patch_only_flag_fields { pipeline := "pipe-1", batchMaxMb := some 7 }
    "acct" tok0 (fun s => s) _ false rfl).1

/-- C2: for both create and update, the `--transform` string is split on
`.`: a two-segment input yields exactly one transform
`{script := first, entrypoint := second}`, a one-segment input yields
exactly one transform with entrypoint `"Transform"`, and any other segment
count fails with the invalid-transform error instead of producing a
config. -/
theorem transform_split_rules (s : String) (cargs : CreateArgs) (uargs : UpdateArgs)
    (accountId : String) (tok : ServiceToken) (h : String → String)
    (hct : cargs.transform = some s) (hcr : truthyStr cargs.r2 = true)
    (hut : uargs.transform = some s) :
    (Except.map (fun c => c.transforms) (buildCreateConfig cargs accountId tok h) =
        (if (splitDot s).length = 2 then
           .ok [{ script := (splitDot s).getD 0 "", entrypoint := (splitDot s).getD 1 "" }]
         else if (splitDot s).length = 1 then
           .ok [{ script := (splitDot s).getD 0 "", entrypoint := "Transform" }]
         else .error (.error "invalid transform: required syntax script.entrypoint"))) ∧
    (Except.map (fun pg => pg.1.transforms) (buildUpdateConfig uargs accountId tok h) =
        (if (splitDot s).length = 2 then
           .ok (some [{ script := (splitDot s).getD 0 "",
                        entrypoint := (splitDot s).getD 1 "" }])
         else if (splitDot s).length = 1 then
           .ok (some [{ script := (splitDot s).getD 0 "", entrypoint := "Transform" }])
         else .error (.error "invalid transform: required syntax script.entrypoint"))) := by
  obtain ⟨b, hb, he⟩ := (truthyStr_eq_true cargs.r2).mp hcr
  constructor
  · simp only [buildCreateConfig, hb, he, Bool.false_eq_true, if_false,
      applyTransformCreate, hct]
    by_cases h2 : (splitDot s).length = 2
    · simp [h2, Except.map, applyPathCreate_transforms,
        (applyAuthCreate_frame cargs.authentication _).2.2.1, baseCreateConfig]
    · by_cases h1 : (splitDot s).length = 1
      · simp [h2, h1, Except.map, applyPathCreate_transforms,
          (applyAuthCreate_frame cargs.authentication _).2.2.1, baseCreateConfig]
      · simp [h2, h1, Except.map]
  · unfold buildUpdateConfig
    dsimp only
    by_cases hr : truthyStr uargs.r2 = true
    · obtain ⟨b2, hb2, he2⟩ := (truthyStr_eq_true uargs.r2).mp hr
      rw [updatePatch_pre_bucket uargs accountId tok h b2 hb2 he2, applyAuthUpdate_eq]
      simp only [applyTransformUpdate, hut]
      by_cases h2 : (splitDot s).length = 2
      · simp [h2, Except.map, applyPathUpdate_transforms]
      · by_cases h1 : (splitDot s).length = 1
        · simp [h2, h1, Except.map, applyPathUpdate_transforms]
        · simp [h2, h1, Except.map]
    · have hr0 : truthyStr uargs.r2 = false := by simpa using hr
      rw [updatePatch_pre_no_bucket uargs accountId tok h hr0, applyAuthUpdate_eq]
      simp only [applyTransformUpdate, hut]
      by_cases h2 : (splitDot s).length = 2
      · simp [h2, Except.map, applyPathUpdate_transforms]
      · by_cases h1 : (splitDot s).length = 1
        · simp [h2, h1, Except.map, applyPathUpdate_transforms]
        · simp [h2, h1, Except.map]

/-- C2 (witness): the split rules applied to the concrete two-segment
input `"a.b"` on both a create and an update invocation. -/
theorem transform_split_rules_witness :
    ({ pipeline := "p", r2 := some "b", transform := some "a.b" } : CreateArgs).transform =
        some "a.b" ∧
      truthyStr (({ pipeline := "p", r2 := some "b", transform := some "a.b" } :
        CreateArgs).r2) = true ∧
      Except.map (fun c => c.transforms)
          (buildCreateConfig { pipeline := "p", r2 := some "b", transform := some "a.b" }
            "acct" tok0 (fun s => s)) =
        .ok [{ script := "a", entrypoint := "b" }] ∧
      Except.map (fun pg => pg.1.transforms)
          (buildUpdateConfig { pipeline := "p", transform := some "a.b" }
            "acct" tok0 (fun s => s)) =
        .ok (some [{ script := "a", entrypoint := "b" }]) := by
  have hmain := transform_split_rules "a.b"
    { pipeline := "p", r2 := some "b", transform := some "a.b" }
    { pipeline := "p", transform := some "a.b" }
    "acct" tok0 (fun s => s) rfl rfl rfl
  have hsplit : splitDot "a.b" = ["a", "b"] := rfl
  rw [hsplit] at hmain
  refine ⟨rfl, rfl, ?_, ?_⟩
  · simpa using hmain.1
  · simpa using hmain.2

/-- C3 (evaluation at the failing input): `create my-pipeline --r2 bkt
--batch-max-seconds 15` produces a batch object serialized with the key
`max_duration`, while the declared data model (`PipelineUserConfig` in
`client.ts`) names the field `max_duration_s`; the supplied seconds limit
therefore never populates the declared field. The unsupplied limits stay
absent (not zero). -/
theorem batch_seconds_key_mismatch :
    Except.map (fun c => c.destination.batch)
        (buildCreateConfig
          { pipeline := "my-pipeline", r2 := some "bkt", batchMaxSeconds := some 15 }
          "acct" tok0 (fun s => s)) =
      .ok { max_mb := none, max_duration := some 15, max_rows := none } ∧
    Except.map (fun c => Batch.jsonKeys c.destination.batch)
        (buildCreateConfig
          { pipeline := "my-pipeline", r2 := some "bkt", batchMaxSeconds := some 15 }
          "acct" tok0 (fun s => s)) =
      .ok ["max_duration"] ∧
    "max_duration" ∉ declaredBatchFields ∧ "max_duration_s" ∈ declaredBatchFields := by
  exact ⟨rfl, rfl, by decide, by decide⟩

/-- C4 (counterexample): for the update invocation
`update my-pipeline --batch-max-mb 1` (no `--compression`), the outgoing
patch's destination carries no compression field at all — in particular it
is not `{type := "none"}` — so nothing forces the resulting configuration's
compression type to `"none"`; the remote value is retained. -/
theorem update_omitted_compression_absent :
    Except.map (fun pg => pg.1.destination.bind (fun d => d.compression))
        (buildUpdateConfig { pipeline := "my-pipeline", batchMaxMb := some 1 }
          "acct" tok0 (fun s => s)) =
      .ok none ∧
    (Except.ok none : Except CliError (Option Compression)) ≠
      .ok (some { type := "none" }) := by
  refine ⟨rfl, ?_⟩
  intro hcon
  exact Option.noConfusion (Except.ok.inj hcon)

/-- C4 (amended): on create, omitting `--compression` always yields
`destination.compression.type = "none"`; on update, omitting
`--compression` leaves the compression field absent from the outgoing
patch, so the remote configuration's existing value is retained rather
than reset to `"none"`. -/
theorem compression_default_create_only (cargs : CreateArgs) (uargs : UpdateArgs)
    (accountId : String) (tok : ServiceToken) (h : String → String)
    (cfg : PipelineUserConfig) (p : UpdatePatch) (g : Bool)
    (hcc : cargs.compression = none)
    (hok : buildCreateConfig cargs accountId tok h = .ok cfg)
    (huc : uargs.compression = none)
    (huok : buildUpdateConfig uargs accountId tok h = .ok (p, g)) :
    cfg.destination.compression = { type := "none" } ∧
    ∃ d, p.destination = some d ∧ d.compression = none := by
  obtain ⟨_, _, _, _, _, _, hcm, _⟩ :=
    buildCreateConfig_characterization cargs accountId tok h cfg hok
  obtain ⟨_, _, _, _, _, d, hd, _, _, _, hcmu, _⟩ :=
    buildUpdateConfig_characterization uargs accountId tok h p g huok
  constructor
  · rw [hcm, hcc]; rfl
  · exact ⟨d, hd, by rw [hcmu, huc]; rfl⟩

/-- C4 (witness): the amended theorem applied to a concrete create and a
concrete update invocation, each omitting `--compression`. -/
theorem compression_default_create_only_witness :
    ({ pipeline := "p", r2 := some "b" } : CreateArgs).compression = none ∧
    ({ pipeline := "p" } : UpdateArgs).compression = none ∧
    (∃ cfg, buildCreateConfig { pipeline := "p", r2 := some "b" } "acct" tok0 (fun s => s) =
        .ok cfg ∧ cfg.destination.compression = { type := "none" }) ∧
    (∃ p2, buildUpdateConfig { pipeline := "p" } "acct" tok0 (fun s => s) = .ok (p2, false) ∧
      ∃ d, p2.destination = some d ∧ d.compression = none) := by
  refine ⟨rfl, rfl, ⟨_, rfl, ?_⟩, ⟨_, rfl, ?_⟩⟩
  · exact (compression_default_create_only { pipeline := "p", r2 := some "b" }
      { pipeline := "p" } "acct" tok0 (fun s => s) _ _ false rfl rfl rfl rfl).1
  · exact (compression_default_create_only { pipeline := "p", r2 := some "b" }
      { pipeline := "p" } "acct" tok0 (fun s => s) _ _ false rfl rfl rfl rfl).2

/-- C5: on create, `--authentication true` makes the source list exactly
the single binding entry, replacing the default two-entry http-then-binding
list; without it the source list is exactly that two-entry default. -/
theorem create_authentication_source (args : CreateArgs) (accountId : String)
    (tok : ServiceToken) (h : String → String) (cfg : PipelineUserConfig)
    (hok : buildCreateConfig args accountId tok h = .ok cfg) :
    cfg.source = if args.authentication = some true
      then [{ type := "binding", format := "json" }]
      else [{ type := "http", format := "json" }, { type := "binding", format := "json" }] :=
  (buildCreateConfig_characterization args accountId tok h cfg hok).2.2.1

/-- C5 (witness): the source-list law applied to a create invocation with
`--authentication` and one without. -/
theorem create_authentication_source_witness :
    (∃ cfg, buildCreateConfig { pipeline := "p", r2 := some "b", authentication := some true }
        "acct" tok0 (fun s => s) = .ok cfg ∧
      cfg.source = [{ type := "binding", format := "json" }]) ∧
    (∃ cfg, buildCreateConfig { pipeline := "p", r2 := some "b" } "acct" tok0 (fun s => s) =
        .ok cfg ∧
      cfg.source = [{ type := "http", format := "json" },
                    { type := "binding", format := "json" }]) := by
  refine ⟨⟨_, rfl, ?_⟩, ⟨_, rfl, ?_⟩⟩
  · simpa using create_authentication_source
      { pipeline := "p", r2 := some "b", authentication := some true }
      "acct" tok0 (fun s => s) _ rfl
  · simpa using create_authentication_source
      { pipeline := "p", r2 := some "b" } "acct" tok0 (fun s => s) _ rfl

/-- C6: an update invocation without the `--r2` flag produces an outgoing
patch whose destination carries no credentials field, and generates no new
service token. -/
theorem update_no_bucket_no_credentials (args : UpdateArgs) (accountId : String)
    (tok : ServiceToken) (h : String → String) (p : UpdatePatch) (g : Bool)
    (hr : args.r2 = none)
    (hok : buildUpdateConfig args accountId tok h = .ok (p, g)) :
    (∀ d, p.destination = some d → d.credentials = none) ∧ g = false := by
  obtain ⟨_, _, _, _, hg, d, hd, _, _, _, _, _, hnb⟩ :=
    buildUpdateConfig_characterization args accountId tok h p g hok
  have hr0 : truthyStr args.r2 = false := by rw [hr]; rfl
  constructor
  · intro d2 hd2
    rw [hd, Option.some.injEq] at hd2
    subst hd2
    exact (hnb hr0).1
  · rw [hg, hr0]

/-- C6 (witness): the no-credentials law applied to
`update my-pipeline --compression gzip` (no `--r2`). -/
theorem update_no_bucket_no_credentials_witness :
    ({ pipeline := "my-pipeline", compression := some "gzip" } : UpdateArgs).r2 = none ∧
    ∃ p2, buildUpdateConfig { pipeline := "my-pipeline", compression := some "gzip" }
        "acct" tok0 (fun s => s) = .ok (p2, false) ∧
      ∀ d, p2.destination = some d → d.credentials = none := by
  refine ⟨rfl, _, rfl, ?_⟩
  exact (update_no_bucket_no_credentials
    { pipeline := "my-pipeline", compression := some "gzip" }
    "acct" tok0 (fun s => s) _ false rfl rfl).1

/-- C7 (counterexample): `update p --r2 bkt --filepath fp` produces a patch
whose destination path is exactly `{bucket := "bkt"}` — the supplied
`--filepath` value is silently dropped instead of overwriting the path
field. -/
theorem update_r2_drops_filepath :
    Except.map (fun pg => pg.1.destination.bind (fun d => d.path))
        (buildUpdateConfig { pipeline := "p", r2 := some "bkt", filepath := some "fp" }
          "acct" tok0 (fun s => s)) =
      .ok (some { bucket := some "bkt", filepath := none, filename := none }) ∧
    ({ pipeline := "p", r2 := some "bkt", filepath := some "fp" } : UpdateArgs).filepath =
      some "fp" := by
  exact ⟨rfl, rfl⟩

/-- C7 (amended): on create, `--filepath` / `--filename` (when non-empty)
overwrite the corresponding path fields and are absent otherwise; on
update without `--r2`, a truthy `--filepath` or `--filename` sets the
patch path to exactly `{filepath, filename}` as supplied; on update with a
non-empty `--r2`, the patch path is `{bucket}` and the `--filepath` /
`--filename` flags are ignored. -/
theorem path_flags_behaviour (cargs : CreateArgs) (uargs : UpdateArgs)
    (accountId : String) (tok : ServiceToken) (h : String → String)
    (cfg : PipelineUserConfig) (p : UpdatePatch) (g : Bool)
    (hok : buildCreateConfig cargs accountId tok h = .ok cfg)
    (huok : buildUpdateConfig uargs accountId tok h = .ok (p, g)) :
    cfg.destination.path.filepath =
      (if truthyStr cargs.filepath then cargs.filepath else none) ∧
    cfg.destination.path.filename =
      (if truthyStr cargs.filename then cargs.filename else none) ∧
    (truthyStr uargs.r2 = false →
      (truthyStr uargs.filepath || truthyStr uargs.filename) = true →
      ∃ d, p.destination = some d ∧
        d.path = some { filepath := uargs.filepath, filename := uargs.filename }) ∧
    (∀ b, uargs.r2 = some b → b.isEmpty = false →
      ∃ d, p.destination = some d ∧ d.path = some { bucket := some b }) := by
  obtain ⟨_, _, _, _, _, _, _, _, _, hfp, hfn, _⟩ :=
    buildCreateConfig_characterization cargs accountId tok h cfg hok
  obtain ⟨_, _, _, _, _, d, hd, _, _, _, _, hbk, hnb⟩ :=
    buildUpdateConfig_characterization uargs accountId tok h p g huok
  refine ⟨hfp, hfn, ?_, ?_⟩
  · intro hr hg
    exact ⟨d, hd, (hnb hr).2.1 hg⟩
  · intro b hb hbe
    exact ⟨d, hd, (hbk b hb hbe).1⟩

/-- C7 (witness): the amended path law applied to
`create p --r2 b --filepath fp` and `update p --filepath fp2` (no
`--r2`). -/
theorem path_flags_behaviour_witness :
    (∃ cfg, buildCreateConfig { pipeline := "p", r2 := some "b", filepath := some "fp" }
        "acct" tok0 (fun s => s) = .ok cfg ∧
      cfg.destination.path.filepath = some "fp" ∧
      cfg.destination.path.filename = none) ∧
    (∃ p2, buildUpdateConfig { pipeline := "p", filepath := some "fp2" }
        "acct" tok0 (fun s => s) = .ok (p2, false) ∧
      ∃ d, p2.destination = some d ∧
        d.path = some { filepath := some "fp2", filename := none }) := by
  have hmain := path_flags_behaviour
    { pipeline := "p", r2 := some "b", filepath := some "fp" }
    { pipeline := "p", filepath := some "fp2" }
    "acct" tok0 (fun s => s) _ _ false rfl rfl
  refine ⟨⟨_, rfl, ?_, ?_⟩, ⟨_, rfl, ?_⟩⟩
  · simpa using hmain.1
  · simpa using hmain.2.1
  · exact hmain.2.2.1 rfl rfl

/-- C8 (counterexample): the create handler performs no name validation
before issuing requests: with the invalid name `"bad name!"` (which fails
`^[a-zA-Z0-9-]+$`) the create config builder still succeeds and carries
that name. -/
theorem create_skips_name_validation :
    validPipelineName "bad name!" = false ∧
    Except.map (fun c => c.name)
        (buildCreateConfig { pipeline := "bad name!", r2 := some "bkt" }
          "acct" tok0 (fun s => s)) =
      .ok "bad name!" := by
  exact ⟨by decide, rfl⟩

/-- C8 (amended): only the delete handler validates the pipeline name
against `^[a-zA-Z0-9-]+$` before its HTTP request (failing with an error
for an invalid name); create and update never validate the name — their
builders succeed for any name whenever the other inputs are
well-formed. -/
theorem name_validation_only_on_delete :
    (∀ name, validPipelineName name = false →
      deleteNameCheck name = .error (.error "must provide a valid pipeline name")) ∧
    (∀ name, validPipelineName name = true → deleteNameCheck name = .ok ()) ∧
    (∀ (args : CreateArgs) (accountId : String) (tok : ServiceToken) (hf : String → String),
      truthyStr args.r2 = true → args.transform = none →
      ∃ cfg, buildCreateConfig args accountId tok hf = .ok cfg) ∧
    (∀ (args : UpdateArgs) (accountId : String) (tok : ServiceToken) (hf : String → String),
      args.transform = none →
      ∃ pg, buildUpdateConfig args accountId tok hf = .ok pg) := by
  refine ⟨?_, ?_, ?_, ?_⟩
  · intro name hv
    simp [deleteNameCheck, hv]
  · intro name hv
    simp [deleteNameCheck, hv]
  · intro args accountId tok hf hr ht
    exact buildCreateConfig_ok_exists args accountId tok hf hr ht
  · intro args accountId tok hf ht
    exact buildUpdateConfig_ok_exists args accountId tok hf ht

/-- C8 (witness): the amended statement instantiated at the invalid name
`"bad name!"`, the valid name `"good-name"`, and concrete create / update
invocations carrying the invalid name. -/
theorem name_validation_only_on_delete_witness :
    validPipelineName "bad name!" = false ∧
    deleteNameCheck "bad name!" = .error (.error "must provide a valid pipeline name") ∧
    deleteNameCheck "good-name" = .ok () ∧
    (∃ cfg, buildCreateConfig { pipeline := "bad name!", r2 := some "b" }
        "acct" tok0 (fun s => s) = .ok cfg) ∧
    (∃ pg, buildUpdateConfig { pipeline := "bad name!" } "acct" tok0 (fun s => s) = .ok pg) := by
  refine ⟨by decide, ?_, ?_, ?_, ?_⟩
  · exact name_validation_only_on_delete.1 "bad name!" (by decide)
  · exact name_validation_only_on_delete.2.1 "good-name" (by decide)
  · exact name_validation_only_on_delete.2.2.1 { pipeline := "bad name!", r2 := some "b" }
      "acct" tok0 (fun s => s) rfl rfl
  · exact name_validation_only_on_delete.2.2.2 { pipeline := "bad name!" }
      "acct" tok0 (fun s => s) rfl

/-- C9 (evaluation at the failing input): the `pipelines` function
registers only the subcommands create, list, delete and update — `show` is
not among them, although the client module defines the matching
`GET /accounts/{id}/pipelines/{name}` request (`getPipeline`), which no
registered command invokes. -/
theorem show_subcommand_not_registered :
    registeredPipelineCommands.map commandWord = ["create", "list", "delete", "update"] ∧
    "show" ∉ registeredPipelineCommands.map commandWord ∧
    getPipelineRequest "acct" "my-pipeline" =
      ("GET", "/accounts/acct/pipelines/my-pipeline") := by
  exact ⟨by decide, by decide, rfl⟩

/-- C10: for every account id, pipeline id and config, `updatePipeline`
issues a PUT to `/accounts/{id}/pipelines/{name}` whose JSON body is
`{name: "foo", config}` — the literal string `"foo"`, independent of the
pipeline being updated, with the config nested under `config` rather than
being the body itself. -/
theorem update_request_body_name_foo (accountId id : String) (config : UpdatePatch) :
    (updatePipelineRequest accountId id config).1 = "PUT" ∧
    (updatePipelineRequest accountId id config).2.1 =
      "/accounts/" ++ accountId ++ "/pipelines/" ++ id ∧
    (updatePipelineRequest accountId id config).2.2.name = "foo" ∧
    (updatePipelineRequest accountId id config).2.2.config = config ∧
    (∀ id2, (updatePipelineRequest accountId id config).2.2 =
      (updatePipelineRequest accountId id2 config).2.2) := by
  exact ⟨rfl, rfl, rfl, rfl, fun _ => rfl⟩

end Pipelines
